import Mathlib

/-!
Verification development for the user-agent-402 request gatekeeper
(`main.ts`).  The TypeScript source is shallowly embedded below:

- The Deno KV store is modeled as explicit maps from keys to `KvOutcome`:
  a read either fails (`KvOutcome.err`, the catch branch of the try/catch
  around `kv.get`) or returns an optional value (`kv.get` returning
  `null` for an absent key).  Store writes (`kv.set`) are modeled as
  always succeeding; no claim exercises the write-failure catch branches.
- `Date.now()` is passed explicitly as a `now : Nat` parameter, measured
  in milliseconds exactly as in the source, so
  `freeRateLimitResetSeconds * 1000` is the reset window in clock units.
- Stateful functions thread the store explicitly: a function that writes
  returns the updated `Store` next to its result.
- `config.fetch` (the external business handler) returns
  `Except String String`: `.ok body` is the response text, `.error e` is
  a thrown exception caught by the orchestrator.
- `handleRequest` additionally returns the `Context` it passed to the
  external handler (`none` when the handler was never invoked), making
  the handler-invocation effect observable.
- JS string truthiness (`if (result.value)`) for cached strings is
  non-emptiness; `localeCompare` on query keys is modeled as the
  code-point order on strings (they agree on the ASCII keys used here),
  and `Array.prototype.sort` is the stable sort mandated by ES2019,
  modeled as a stable insertion sort.
- The charging stage of the orchestrator chains `.exhaustive()` onto the
  value returned by the terminal `.otherwise(...)` of its ts-pattern
  match.  In ts-pattern v5 `.otherwise` already executes the match and
  returns the handler result - here a Promise - and a Promise has no
  `exhaustive` method, so evaluating this expression throws a TypeError
  for every user state, outside the try block that guards
  `config.fetch`.  This is modeled by `chargeStage` evaluating to
  `JsEval.thrown`; the value the terminal `.otherwise` produces (the
  intended charge result) is kept as `chargeMatchValue`, and the
  uncaught rejection surfaces as the HTTP layer's default 500 response
  (`unhandledErrorResponse`, the `Deno.serve` onError default).
-/

namespace UA402

/-- Outcome of a raw KV read: a thrown store error, or an optional value. -/
inductive KvOutcome (V : Type) where
  | err : KvOutcome V
  | val : Option V → KvOutcome V
deriving DecidableEq

/-- Decidable equality for Except results, used to evaluate concrete runs. -/
instance {ε α : Type} [DecidableEq ε] [DecidableEq α] : DecidableEq (Except ε α) := fun x y =>
  match x, y with
  | .ok a, .ok b =>
    if h : a = b then isTrue (by rw [h])
    else isFalse (by intro hc; injection hc with h2; exact h h2)
  | .ok _, .error _ => isFalse (fun hc => Except.noConfusion hc)
  | .error _, .ok _ => isFalse (fun hc => Except.noConfusion hc)
  | .error e, .error f =>
    if h : e = f then isTrue (by rw [h])
    else isFalse (by intro hc; injection hc with h2; exact h h2)

/-- StripeUser from the source; only the fields the core reads are kept. -/
structure StripeUser where
  access_token : String
  balance : Int
  name : Option String := none
  email : Option String := none
deriving DecidableEq

/-- RateLimitData record stored under a ratelimit key. -/
structure RateLimitData where
  count : Nat
  resetTime : Nat
deriving DecidableEq

/-- ResponseFormat discriminated union. -/
inductive ResponseFormat where
  | json
  | html
  | markdown
deriving DecidableEq

/-- Errors produced by the effect functions (the Error values of main.ts). -/
inductive Err where
  | storeError
  | userNotFound
  | insufficientBalance
deriving DecidableEq

/-- UserState ADT. -/
inductive UserState where
  | anonymous (clientId : String)
  | authenticated (user : StripeUser)
  | insufficient_balance (user : StripeUser)
deriving DecidableEq

/-- RateLimitResult ADT. -/
inductive RateLimitResult where
  | allowed (remaining : Int)
  | exceeded (resetTime : Nat)
deriving DecidableEq

/-- CacheResult ADT. -/
inductive CacheResult (V : Type) where
  | hit (value : V)
  | miss
deriving DecidableEq

/-- The Deno KV store, split by key families as used by main.ts
(`user:` keys, `ratelimit:` keys, cache keys). -/
structure Store where
  users : String → KvOutcome StripeUser
  rateLimits : String → KvOutcome RateLimitData
  cache : String → KvOutcome String

/-- Point update of one key family. -/
def updateFun {V : Type} (f : String → KvOutcome V) (k : String) (v : KvOutcome V) :
    String → KvOutcome V :=
  fun x => if x = k then v else f x

/-- Context handed to the external business handler; the kv and env
handles add nothing to the embedding, only the resolved user matters. -/
structure Context where
  user : Option StripeUser
deriving DecidableEq

/-- Inbound request as seen after the transport layer. -/
structure Request where
  method : String
  pathname : String
  searchParams : List (String × String)
  authHeader : Option String
  acceptHeader : Option String
deriving DecidableEq

/-- RequestData produced by parseRequestData. -/
structure RequestData where
  pathname : String
  searchParams : List (String × String)
  authToken : Option String
  acceptHeader : String
deriving DecidableEq

/-- Configuration record; fetch is the caller-supplied business handler. -/
structure Config where
  version : Nat
  priceCredit : Int
  freeRatelimit : Nat
  freeRateLimitResetSeconds : Nat
  cacheSeconds : Option Int
  fetch : Request → Context → Except String String

/-- Environment: only STRIPE_PAYMENT_LINK is read by the core. -/
structure Env where
  STRIPE_PAYMENT_LINK : Option String
deriving DecidableEq

/-- A minimal HTTP response: status, body text, header list. -/
structure HttpResponse where
  status : Nat
  body : String
  headers : List (String × String)
deriving DecidableEq

/-! Character-list string helpers (executable, kernel-reducible). -/

/-- Whether the first list is an initial segment of the second. -/
def startsL : List Char → List Char → Bool
  | [], _ => true
  | _ :: _, [] => false
  | p :: ps, c :: cs => p == c && startsL ps cs

/-- Whether the needle occurs as a contiguous run in the haystack. -/
def containsSubL (needle : List Char) : List Char → Bool
  | [] => startsL needle []
  | c :: cs => startsL needle (c :: cs) || containsSubL needle cs

/-- Substring test on strings (JS String.prototype.includes). -/
def containsSub (needle hay : String) : Bool :=
  containsSubL needle.data hay.data

/-- Replace the first occurrence of a pattern (JS String.prototype.replace
with a plain-string pattern). -/
def replaceFirstL (pat repl : List Char) : List Char → List Char
  | [] => []
  | c :: cs =>
    if startsL pat (c :: cs) then repl ++ (c :: cs).drop pat.length
    else c :: replaceFirstL pat repl cs

/-- Split on a separator character (JS String.prototype.split). -/
def splitOnCharL (sep : Char) : List Char → List (List Char)
  | [] => [[]]
  | c :: cs =>
    let r := splitOnCharL sep cs
    if c = sep then [] :: r
    else
      match r with
      | [] => [[c]]
      | h :: t => (c :: h) :: t

/-- Join chunks with a separator (JS Array.prototype.join). -/
def joinWith (sep : List Char) : List (List Char) → List Char
  | [] => []
  | [x] => x
  | x :: xs => x ++ sep ++ joinWith sep xs

/-- ASCII lower-casing of one character (JS toLowerCase on the ASCII
extensions that matter here). -/
def asciiLowerChar (c : Char) : Char :=
  if 'A' ≤ c ∧ c ≤ 'Z' then Char.ofNat (c.toNat + 32) else c

/-- ASCII lower-casing of a character list. -/
def asciiLowerL (l : List Char) : List Char :=
  l.map asciiLowerChar

/-! Pure functions of main.ts. -/

/-- parseRequestData: strip the Bearer prefix from the Authorization
header; an empty token degrades to absent (the JS or-undefined). -/
def parseRequestData (req : Request) : RequestData :=
  { pathname := req.pathname
    searchParams := req.searchParams
    authToken :=
      match req.authHeader with
      | none => none
      | some h =>
        let t := String.mk (replaceFirstL (("Bearer ").data) [] h.data)
        if t = "" then none else some t
    acceptHeader := req.acceptHeader.getD ("") }

/-- getResponseFormat: path extension wins, then Accept header substring,
default json. -/
def getResponseFormat (rd : RequestData) : ResponseFormat :=
  let ext := asciiLowerL ((splitOnCharL '.' rd.pathname.data).getLastD [])
  if ext = ("html").data then .html
  else if ext = ("md").data ∨ ext = ("markdown").data then .markdown
  else if containsSubL (("text/html").data) rd.acceptHeader.data then .html
  else if containsSubL (("text/markdown").data) rd.acceptHeader.data then .markdown
  else .json

/-- The template-literal rendering of a ResponseFormat value. -/
def formatName : ResponseFormat → String
  | .json => "json"
  | .html => "html"
  | .markdown => "markdown"

/-- Lexicographic code-point comparison on character lists: the model of
the localeCompare comparator (they agree on the ASCII keys used here). -/
def lexLE : List Char → List Char → Bool
  | [], _ => true
  | _ :: _, [] => false
  | a :: as, b :: bs => if a < b then true else if b < a then false else lexLE as bs

/-- Key comparison for the query-parameter sort. -/
def keyLE (a b : String) : Bool := lexLE a.data b.data

/-- Stable insertion of a pair before the first pair of greater-or-equal
key: together with sortPairs this is the ES2019 stable sort under the
comparator comparing only keys. -/
def insertPair (p : String × String) : List (String × String) → List (String × String)
  | [] => [p]
  | q :: qs => if keyLE p.1 q.1 then p :: q :: qs else q :: insertPair p qs

/-- Stable sort of query parameters by key name. -/
def sortPairs : List (String × String) → List (String × String)
  | [] => []
  | p :: ps => insertPair p (sortPairs ps)

/-- Weak key order on query pairs. -/
def pairKeyLE (p q : String × String) : Prop := keyLE p.1 q.1 = true

/-- Key distinctness on query pairs. -/
def pairKeyNe (p q : String × String) : Prop := p.1 ≠ q.1

/-- Strict key order on query pairs. -/
def keyLT (p q : String × String) : Prop := keyLE p.1 q.1 = true ∧ p.1 ≠ q.1

/-- createCacheKey: version, pathname, sorted query pairs, format. -/
def createCacheKey (cfg : Config) (pathname : String)
    (searchParams : List (String × String)) (format : ResponseFormat) : String :=
  let sortedParams :=
    String.mk (joinWith (['&'])
      ((sortPairs searchParams).map (fun p => p.1.data ++ ['='] ++ p.2.data)))
  ("cache:v") ++ toString cfg.version ++ (":") ++ pathname ++ (":")
    ++ sortedParams ++ (":") ++ formatName format

/-! markdownToHtml: the six sequential regex replacements of the source,
modeled on character lists.  The heading replacements use the m flag
(anchored at each line start, the captured group is the rest of the
line); the bold and em replacements use lazy groups that cannot cross a
newline; the final replacement maps every newline to a br tag. -/

/-- One line of the h1 pass. -/
def h1Line (l : List Char) : List Char :=
  if startsL (['#', ' ']) l then ("<h1>").data ++ l.drop 2 ++ ("</h1>").data else l

/-- One line of the h2 pass. -/
def h2Line (l : List Char) : List Char :=
  if startsL (['#', '#', ' ']) l then ("<h2>").data ++ l.drop 3 ++ ("</h2>").data else l

/-- One line of the h3 pass. -/
def h3Line (l : List Char) : List Char :=
  if startsL (['#', '#', '#', ' ']) l then ("<h3>").data ++ l.drop 4 ++ ("</h3>").data else l

/-- Apply a per-line transform across the whole text (the gm anchor). -/
def mdLines (f : List Char → List Char) (s : List Char) : List Char :=
  joinWith (['\n']) ((splitOnCharL '\n' s).map f)

/-- Distance to the closing double-star of a lazily matched bold group:
the content may not contain a newline and is the shortest possible. -/
def findCloseBold : List Char → Option Nat
  | '*' :: '*' :: _ => some 0
  | '\n' :: _ => none
  | _ :: cs => (findCloseBold cs).map (fun n => n + 1)
  | [] => none

/-- Global replacement of double-star bold spans, structurally recursive
on a fuel argument so the kernel can evaluate it; every step shortens the
scanned list by at least one and consumes one unit of fuel, so a fuel of
the list length never runs out. -/
def boldPassF : Nat → List Char → List Char
  | fuel + 1, '*' :: '*' :: rest =>
    match findCloseBold rest with
    | some n =>
      ("<strong>").data ++ rest.take n ++ ("</strong>").data
        ++ boldPassF fuel (rest.drop (n + 2))
    | none => '*' :: '*' :: boldPassF fuel rest
  | fuel + 1, c :: cs => c :: boldPassF fuel cs
  | _, [] => []
  | 0, l => l

/-- Global replacement of double-star bold spans. -/
def boldPass (l : List Char) : List Char := boldPassF l.length l

/-- Distance to the closing star of a lazily matched em group. -/
def findCloseEm : List Char → Option Nat
  | '*' :: _ => some 0
  | '\n' :: _ => none
  | _ :: cs => (findCloseEm cs).map (fun n => n + 1)
  | [] => none

/-- Global replacement of single-star em spans, with the same fuel
discipline as boldPassF. -/
def emPassF : Nat → List Char → List Char
  | fuel + 1, '*' :: rest =>
    match findCloseEm rest with
    | some n =>
      ("<em>").data ++ rest.take n ++ ("</em>").data
        ++ emPassF fuel (rest.drop (n + 1))
    | none => '*' :: emPassF fuel rest
  | fuel + 1, c :: cs => c :: emPassF fuel cs
  | _, [] => []
  | 0, l => l

/-- Global replacement of single-star em spans. -/
def emPass (l : List Char) : List Char := emPassF l.length l

/-- Replace every newline with a br tag. -/
def brPass (l : List Char) : List Char :=
  l.flatMap (fun c => if c = '\n' then ("<br>").data else [c])

/-- markdownToHtml: the replacement chain of the source, in order. -/
def markdownToHtml (markdown : String) : String :=
  String.mk
    (brPass (emPass (boldPass
      (mdLines h3Line (mdLines h2Line (mdLines h1Line markdown.data))))))

/-- createCorsHeaders. -/
def createCorsHeaders : List (String × String) :=
  [("Access-Control-Allow-Origin", "*"),
   ("Access-Control-Allow-Methods", "GET, POST, PUT, DELETE, OPTIONS"),
   ("Access-Control-Allow-Headers", "Content-Type, Authorization")]

/-! Effect functions. -/

/-- getUserByToken: a raw read of the user key. -/
def getUserByToken (st : Store) (accessToken : String) :
    Except Err (Option StripeUser) :=
  match st.users (("user:") ++ accessToken) with
  | .err => .error .storeError
  | .val v => .ok v

/-- getRateLimitData: an absent or expired record is replaced by count 0
with a fresh resetTime of now plus the reset window (in milliseconds, as
in the source). -/
def getRateLimitData (cfg : Config) (now : Nat) (st : Store) (userId : String) :
    Except Err RateLimitData :=
  match st.rateLimits (("ratelimit:") ++ userId) with
  | .err => .error .storeError
  | .val v =>
    let resetTime := now + cfg.freeRateLimitResetSeconds * 1000
    match v with
    | none => .ok { count := 0, resetTime := resetTime }
    | some d => if now > d.resetTime then .ok { count := 0, resetTime := resetTime } else .ok d

/-- updateRateLimit: write the record back (write modeled as succeeding). -/
def updateRateLimit (st : Store) (userId : String) (d : RateLimitData) : Store :=
  { st with rateLimits := updateFun st.rateLimits (("ratelimit:") ++ userId) (.val (some d)) }

/-- checkFreeRateLimit: read, compare against the free limit, and on
success persist the incremented count. -/
def checkFreeRateLimit (cfg : Config) (now : Nat) (st : Store) (clientId : String) :
    Except Err RateLimitResult × Store :=
  match getRateLimitData cfg now st clientId with
  | .error e => (.error e, st)
  | .ok d =>
    if d.count ≥ cfg.freeRatelimit then (.ok (.exceeded d.resetTime), st)
    else
      let updated : RateLimitData := { count := d.count + 1, resetTime := d.resetTime }
      (.ok (.allowed ((cfg.freeRatelimit : Int) - ((d.count + 1 : Nat) : Int))),
       updateRateLimit st clientId updated)

/-- checkRateLimit: positive-balance authenticated users bypass the free
path; everyone else goes through checkFreeRateLimit keyed by identity. -/
def checkRateLimit (cfg : Config) (now : Nat) (st : Store) (us : UserState) :
    Except Err RateLimitResult × Store :=
  match us with
  | .authenticated user =>
    if user.balance > 0 then (.ok (.allowed user.balance), st)
    else checkFreeRateLimit cfg now st user.access_token
  | .anonymous clientId => checkFreeRateLimit cfg now st clientId
  | .insufficient_balance user => checkFreeRateLimit cfg now st user.access_token

/-- chargeUser: re-read the account, verify the balance, write it back
decremented. -/
def chargeUser (st : Store) (userId : String) (amount : Int) :
    Except Err StripeUser × Store :=
  match getUserByToken st userId with
  | .error e => (.error e, st)
  | .ok none => (.error .userNotFound, st)
  | .ok (some user) =>
    if user.balance < amount then (.error .insufficientBalance, st)
    else
      let updatedUser := { user with balance := user.balance - amount }
      (.ok updatedUser,
       { st with users := updateFun st.users (("user:") ++ userId) (.val (some updatedUser)) })

/-- getFromCache: a hit requires a truthy stored value (for strings,
non-empty). -/
def getFromCache (st : Store) (cacheKey : String) :
    Except Err (CacheResult String) :=
  match st.cache cacheKey with
  | .err => .error .storeError
  | .val (some v) => if v = "" then .ok .miss else .ok (.hit v)
  | .val none => .ok .miss

/-- setCache: gated on a positive configured TTL, otherwise a successful
no-op. -/
def setCache (cfg : Config) (st : Store) (cacheKey : String) (value : String) :
    Except Err Unit × Store :=
  match cfg.cacheSeconds with
  | none => (.ok (), st)
  | some t =>
    if t ≤ 0 then (.ok (), st)
    else (.ok (), { st with cache := updateFun st.cache cacheKey (.val (some value)) })

/-! Response creators. -/

/-- The JSON.stringify rendering of the payment-required body; an absent
payment link is omitted, as JSON.stringify omits undefined fields. -/
def paymentBody (message : String) (link : Option String) : String :=
  ("\x7b\"error\":\"Payment Required\",\"message\":\"") ++ message ++ ("\",")
    ++ (match link with
        | some l => ("\"payment_link\":\"") ++ l ++ ("\",")
        | none => "")
    ++ ("\"status\":402\x7d")

/-- createPaymentRequiredResponse. -/
def createPaymentRequiredResponse (env : Env) (message : String) : HttpResponse :=
  { status := 402
    body := paymentBody message env.STRIPE_PAYMENT_LINK
    headers := ("Content-Type", "application/json") :: createCorsHeaders }

/-- createSuccessResponse: format-dependent content type, the html format
runs the markdown transform, others pass the body through. -/
def createSuccessResponse (responseText : String) (format : ResponseFormat)
    (cacheStatus : String) : HttpResponse :=
  let contentType :=
    match format with
    | .html => "text/html"
    | .markdown => "text/markdown"
    | .json => "application/json"
  let formattedText :=
    match format with
    | .html => markdownToHtml responseText
    | _ => responseText
  { status := 200
    body := formattedText
    headers := ("Content-Type", contentType) :: ("X-Cache", cacheStatus) :: createCorsHeaders }

/-- createOptionsResponse. -/
def createOptionsResponse : HttpResponse :=
  { status := 200, body := "", headers := createCorsHeaders }

/-- determineUserState: no token gives the anonymous fallback; a failed
or missing lookup degrades to anonymous keyed by the token itself;
otherwise the balance splits insufficient_balance from authenticated. -/
def determineUserState (st : Store) (rd : RequestData) : UserState :=
  match rd.authToken with
  | none => .anonymous ("anonymous")
  | some token =>
    match getUserByToken st token with
    | .error _ => .anonymous token
    | .ok none => .anonymous token
    | .ok (some user) =>
      if user.balance ≤ 0 then .insufficient_balance user else .authenticated user

/-! The orchestrator. -/

/-- The negotiated response format of a request. -/
def requestFormat (req : Request) : ResponseFormat :=
  getResponseFormat (parseRequestData req)

/-- The cache key the orchestrator derives for a request. -/
def requestCacheKey (cfg : Config) (req : Request) : String :=
  createCacheKey cfg (parseRequestData req).pathname
    (parseRequestData req).searchParams (requestFormat req)

/-- The 402 message for an exceeded free rate limit. -/
def rateLimitMessage (cfg : Config) : String :=
  ("Free rate limit exceeded. Limit: ") ++ toString cfg.freeRatelimit
    ++ (" requests per ") ++ toString cfg.freeRateLimitResetSeconds ++ (" seconds.")

/-- The value produced by the terminal otherwise of the charging match:
the intended charge result - a charged or passed-through account for
Authenticated, no account for every other state.  For a positive-balance
Authenticated user the source handler starts an async chargeUser call
whose promise is never awaited (see chargeStage); its detached effects
are not modeled. -/
def chargeMatchValue (cfg : Config) (st : Store) (us : UserState) :
    Except Err (Option StripeUser) × Store :=
  match us with
  | .authenticated user =>
    if user.balance > 0 then
      match chargeUser st user.access_token cfg.priceCredit with
      | (.error e, st2) => (.error e, st2)
      | (.ok v, st2) => (.ok (some v), st2)
    else (.ok (some user), st)
  | _ => (.ok none, st)

/-- Evaluation outcome of a source expression that can end in an
uncaught runtime TypeError. -/
inductive JsEval (α : Type) where
  | thrown : JsEval α
  | value : α → JsEval α
deriving DecidableEq

/-- The charging stage of handleRequest.  The source chains a call of
exhaustive onto the value returned by the terminal otherwise of the
ts-pattern match; otherwise already executes the match and returns the
handler result, a Promise, and a Promise has no exhaustive method, so
the expression throws a TypeError for every user state - before the try
block that guards config.fetch.  The stage never completes normally:
its evaluation outcome is always thrown, and the value the match alone
would have produced is chargeMatchValue. -/
def chargeStage (_cfg : Config) (_st : Store) (_us : UserState) :
    JsEval (Except Err (Option StripeUser) × Store) :=
  .thrown

/-- The response the HTTP layer produces when the request handler
promise rejects with an uncaught error (the onError default of
Deno.serve, which initializeServer installs the handler into). -/
def unhandledErrorResponse : HttpResponse :=
  { status := 500, body := "Internal Server Error", headers := [] }

/-- The handler-invocation stage: build the context, call the external
handler, cache and wrap a successful body, map a thrown error to the
payment-required channel.  The context is returned for observation. -/
def invokeHandler (cfg : Config) (env : Env) (st : Store) (req : Request)
    (fmt : ResponseFormat) (cacheKey : String) (chargedUser : Option StripeUser) :
    HttpResponse × Store × Option Context :=
  let context : Context := { user := chargedUser }
  match cfg.fetch req context with
  | .error e =>
    (createPaymentRequiredResponse env (("Handler error: ") ++ e), st, some context)
  | .ok responseText =>
    (createSuccessResponse responseText fmt ("MISS"),
     (setCache cfg st cacheKey responseText).2, some context)

/-- The cache-miss pipeline: user-state resolution, rate limiting,
charging, handler invocation. -/
def processMiss (cfg : Config) (env : Env) (now : Nat) (st : Store) (req : Request)
    (rd : RequestData) (fmt : ResponseFormat) (cacheKey : String) :
    HttpResponse × Store × Option Context :=
  let us := determineUserState st rd
  match checkRateLimit cfg now st us with
  | (.error _, st1) =>
    (createPaymentRequiredResponse env ("Rate limit check failed"), st1, none)
  | (.ok (.exceeded _), st1) =>
    (createPaymentRequiredResponse env (rateLimitMessage cfg), st1, none)
  | (.ok (.allowed _), st1) =>
    match chargeStage cfg st1 us with
    | .thrown => (unhandledErrorResponse, st1, none)
    | .value (.error _, st2) =>
      (createPaymentRequiredResponse env
        ("Insufficient balance. Please add funds to your account."), st2, none)
    | .value (.ok chargedUser, st2) => invokeHandler cfg env st2 req fmt cacheKey chargedUser

/-- handleRequest: OPTIONS short-circuit, cache check, then the miss
pipeline.  Returns the response, the final store, and the context passed
to the external handler when it was invoked. -/
def handleRequest (cfg : Config) (env : Env) (now : Nat) (st : Store) (req : Request) :
    HttpResponse × Store × Option Context :=
  if req.method = "OPTIONS" then (createOptionsResponse, st, none)
  else
    match getFromCache st (requestCacheKey cfg req) with
    | .ok (.hit v) => (createSuccessResponse v (requestFormat req) ("HIT"), st, none)
    | _ =>
      processMiss cfg env now st req (parseRequestData req) (requestFormat req)
        (requestCacheKey cfg req)

/-! Concrete fixtures used by the testable-property theorems. -/

/-- A store with no records at all. -/
def emptyStore : Store :=
  { users := fun _ => .val none
    rateLimits := fun _ => .val none
    cache := fun _ => .val none }

/-- An environment without a configured payment link. -/
def env0 : Env := { STRIPE_PAYMENT_LINK := none }

/-- The free-tier scenario configuration of the spec: freeLimit 2,
one-hour window, caching disabled, a constant handler. -/
def demoCfg : Config :=
  { version := 1
    priceCredit := 1
    freeRatelimit := 2
    freeRateLimitResetSeconds := 3600
    cacheSeconds := none
    fetch := fun _ _ => .ok ("hello") }

/-- An anonymous JSON request to the root path. -/
def demoReq : Request :=
  { method := "GET", pathname := "/", searchParams := []
    authHeader := none, acceptHeader := none }

/-- First request of the free-tier scenario. -/
def demoStep1 : HttpResponse × Store × Option Context :=
  handleRequest demoCfg env0 0 emptyStore demoReq

/-- Second request, on the store left by the first. -/
def demoStep2 : HttpResponse × Store × Option Context :=
  handleRequest demoCfg env0 0 demoStep1.2.1 demoReq

/-- Third request, on the store left by the second. -/
def demoStep3 : HttpResponse × Store × Option Context :=
  handleRequest demoCfg env0 0 demoStep2.2.1 demoReq

/-- Account with balance 20. -/
def uA20 : StripeUser := { access_token := "tokA", balance := 20 }

/-- Store holding only uA20. -/
def stA : Store :=
  { emptyStore with
    users := fun k => if k = ("user:tokA") then .val (some uA20) else .val none }

/-- Account with balance 5. -/
def uB5 : StripeUser := { access_token := "tokB", balance := 5 }

/-- Store holding only uB5. -/
def stB : Store :=
  { emptyStore with
    users := fun k => if k = ("user:tokB") then .val (some uB5) else .val none }

/-- An authenticated request carrying the token tok. -/
def reqC3 : Request :=
  { method := "GET", pathname := "/", searchParams := []
    authHeader := some ("Bearer tok"), acceptHeader := none }

/-- A store with a cached response for reqC3 while the requester has an
exhausted free-tier quota and a negative balance. -/
def stC3 : Store :=
  { users := fun k =>
      if k = ("user:tok") then .val (some { access_token := "tok", balance := -5 })
      else .val none
    rateLimits := fun k =>
      if k = ("ratelimit:tok") then .val (some { count := 99, resetTime := 7200000 })
      else .val none
    cache := fun k =>
      if k = requestCacheKey demoCfg reqC3 then .val (some ("cached!")) else .val none }

/-- A store holding a stale rate-limit record with a large count. -/
def stC4 : Store :=
  { emptyStore with
    rateLimits := fun k =>
      if k = ("ratelimit:c4") then .val (some { count := 7, resetTime := 10 })
      else .val none }

/-- RequestData of an unauthenticated request. -/
def rdAnon : RequestData :=
  { pathname := "/", searchParams := [], authToken := none, acceptHeader := "" }

/-- Account with balance 0 under token tok. -/
def uC7 : StripeUser := { access_token := "tok", balance := 0 }

/-- Store holding only uC7. -/
def stC7 : Store :=
  { emptyStore with
    users := fun k => if k = ("user:tok") then .val (some uC7) else .val none }

/-- An authenticated request for the insufficient-balance scenario. -/
def reqC7 : Request :=
  { method := "GET", pathname := "/", searchParams := []
    authHeader := some ("Bearer tok"), acceptHeader := none }

/-- A store caching the empty string for the demo request. -/
def stC10 : Store :=
  { emptyStore with
    cache := fun k =>
      if k = requestCacheKey demoCfg demoReq then .val (some ("")) else .val none }

/-! Theorems. -/

/-- C2: chargeUser re-reads the account; with sufficient balance it
writes balance minus amount back and returns the updated account, with
insufficient balance it fails with the InsufficientBalance error and
leaves the store untouched, and with an absent account it fails with the
NotFound error; concretely, charging balance 20 by 10 gives 10 and twice
gives 0, while charging balance 5 by 10 errors and leaves 5 stored. -/
theorem chargeUser_spec (st : Store) (token : String) (amount : Int) :
    (∀ u : StripeUser, st.users (("user:") ++ token) = .val (some u) →
      (amount ≤ u.balance →
        chargeUser st token amount
          = (.ok { u with balance := u.balance - amount },
             { st with users := updateFun st.users (("user:") ++ token) (.val (some { u with balance := u.balance - amount })) }))
      ∧ (u.balance < amount →
          chargeUser st token amount = (.error .insufficientBalance, st)))
    ∧ (st.users (("user:") ++ token) = .val none →
        chargeUser st token amount = (.error .userNotFound, st))
    ∧ (chargeUser stA ("tokA") 10).1 = .ok { uA20 with balance := 10 }
    ∧ (chargeUser (chargeUser stA ("tokA") 10).2 ("tokA") 10).1
        = .ok { uA20 with balance := 0 }
    ∧ (chargeUser stB ("tokB") 10).1 = .error .insufficientBalance
    ∧ (chargeUser stB ("tokB") 10).2.users (("user:tokB")) = .val (some uB5) := by
  refine ⟨?_, ?_, by decide, by decide, by decide, by decide⟩
  · intro u hu
    constructor
    · intro hle
      simp only [chargeUser, getUserByToken, hu]
      rw [if_neg (not_lt.mpr hle)]
    · intro hlt
      simp only [chargeUser, getUserByToken, hu]
      rw [if_pos hlt]
  · intro hnone
    simp only [chargeUser, getUserByToken, hnone]

/-- C2 witness: charging the balance-5 account by 10 fails with the
InsufficientBalance error and leaves the store unchanged. -/
theorem chargeUser_spec_witness :
    chargeUser stB ("tokB") 10 = (.error .insufficientBalance, stB) :=
  ((chargeUser_spec stB ("tokB") 10).1 uB5 (by decide)).2 (by decide)

/-- C4: an absent rate-limit record, or one whose resetTime is strictly
in the past, is read back as count 0 with a fresh resetTime of now plus
the reset window (freeRateLimitResetSeconds converted to the millisecond
clock of the source), and this reset happens before the comparison
against the free limit: a stale record passes the check regardless of
its stored count whenever the free limit is positive. -/
theorem rateLimit_reset_spec (cfg : Config) (now : Nat) (st : Store) (uid : String) :
    (st.rateLimits (("ratelimit:") ++ uid) = .val none →
      getRateLimitData cfg now st uid
        = .ok { count := 0, resetTime := now + cfg.freeRateLimitResetSeconds * 1000 })
    ∧ (∀ c r, st.rateLimits (("ratelimit:") ++ uid) = .val (some { count := c, resetTime := r }) →
        now > r →
        getRateLimitData cfg now st uid
          = .ok { count := 0, resetTime := now + cfg.freeRateLimitResetSeconds * 1000 })
    ∧ (∀ c r, st.rateLimits (("ratelimit:") ++ uid) = .val (some { count := c, resetTime := r }) →
        now > r → 0 < cfg.freeRatelimit →
        (checkFreeRateLimit cfg now st uid).1
          = .ok (.allowed ((cfg.freeRatelimit : Int) - 1))) := by
  refine ⟨?_, ?_, ?_⟩
  · intro h
    simp only [getRateLimitData, h]
  · intro c r h hr
    simp only [getRateLimitData, h]
    rw [if_pos hr]
  · intro c r h hr hpos
    simp only [checkFreeRateLimit, getRateLimitData, h]
    rw [if_pos hr]
    simp only []
    rw [if_neg (by omega)]
    norm_num

/-- C4 witness: a record with count 7 but resetTime 10 read at time 11 is
treated as count 0 with a fresh window, and passes the check with the
full remaining quota. -/
theorem rateLimit_reset_spec_witness :
    getRateLimitData demoCfg 11 stC4 ("c4") = .ok { count := 0, resetTime := 11 + 3600 * 1000 }
    ∧ (checkFreeRateLimit demoCfg 11 stC4 ("c4")).1 = .ok (.allowed ((2 : Int) - 1)) := by
  constructor
  · exact (rateLimit_reset_spec demoCfg 11 stC4 ("c4")).2.1 7 10 (by decide) (by decide)
  · exact (rateLimit_reset_spec demoCfg 11 stC4 ("c4")).2.2 7 10 (by decide) (by decide) (by decide)

/-- C6: determineUserState classifies a request with no token as the
fallback Anonymous identity, degrades a failed or missing account lookup
to Anonymous keyed by the token itself, and otherwise splits on the
balance: non-positive gives InsufficientBalance, positive gives
Authenticated. -/
theorem determineUserState_spec (st : Store) (rd : RequestData) :
    (rd.authToken = none → determineUserState st rd = .anonymous ("anonymous"))
    ∧ (∀ t, rd.authToken = some t → st.users (("user:") ++ t) = .err →
        determineUserState st rd = .anonymous t)
    ∧ (∀ t, rd.authToken = some t → st.users (("user:") ++ t) = .val none →
        determineUserState st rd = .anonymous t)
    ∧ (∀ t u, rd.authToken = some t → st.users (("user:") ++ t) = .val (some u) →
        u.balance ≤ 0 → determineUserState st rd = .insufficient_balance u)
    ∧ (∀ t u, rd.authToken = some t → st.users (("user:") ++ t) = .val (some u) →
        0 < u.balance → determineUserState st rd = .authenticated u) := by
  refine ⟨?_, ?_, ?_, ?_, ?_⟩
  · intro h; simp only [determineUserState, h]
  · intro t ht hu; simp only [determineUserState, ht, getUserByToken, hu]
  · intro t ht hu; simp only [determineUserState, ht, getUserByToken, hu]
  · intro t u ht hu hb
    simp only [determineUserState, ht, getUserByToken, hu]
    rw [if_pos hb]
  · intro t u ht hu hb
    simp only [determineUserState, ht, getUserByToken, hu]
    rw [if_neg (not_le.mpr hb)]

/-- C6 witness: the no-token request resolves to the fallback Anonymous
identity, and the balance-0 account resolves to InsufficientBalance. -/
theorem determineUserState_spec_witness :
    determineUserState emptyStore rdAnon = .anonymous ("anonymous")
    ∧ determineUserState stC7 (parseRequestData reqC7) = .insufficient_balance uC7 := by
  constructor
  · exact (determineUserState_spec emptyStore rdAnon).1 (by decide)
  · exact (determineUserState_spec stC7 (parseRequestData reqC7)).2.2.2.1 ("tok") uC7
      (by decide) (by decide) (by decide)

/-- C8: composition passes the body through unchanged for the json and
markdown formats and applies the markdown transform for html; the
transform turns line-leading heading markers into heading tags of the
matching depth, double-star spans into strong tags, single-star spans
into em tags, and every newline into a br tag. -/
theorem responseCompose_spec :
    (∀ s c, (createSuccessResponse s .json c).body = s)
    ∧ (∀ s c, (createSuccessResponse s .markdown c).body = s)
    ∧ (∀ s c, (createSuccessResponse s .html c).body = markdownToHtml s)
    ∧ markdownToHtml ("# Title") = "<h1>Title</h1>"
    ∧ markdownToHtml ("## Sub") = "<h2>Sub</h2>"
    ∧ markdownToHtml ("### Deep") = "<h3>Deep</h3>"
    ∧ markdownToHtml ("**bold**") = "<strong>bold</strong>"
    ∧ markdownToHtml ("*word*") = "<em>word</em>"
    ∧ markdownToHtml ("a\nb") = "a<br>b" := by
  refine ⟨fun s c => rfl, fun s c => rfl, fun s c => rfl,
    by decide, by decide, by decide, by decide, by decide, by decide⟩

/-- C9: a missing, zero, or negative configured TTL turns setCache into a
no-op that writes nothing and still reports success, for every key and
value. -/
theorem setCache_disabled_spec (cfg : Config) (st : Store) (k v : String)
    (h : cfg.cacheSeconds = none ∨ ∃ t, cfg.cacheSeconds = some t ∧ t ≤ 0) :
    setCache cfg st k v = (.ok (), st) := by
  rcases h with h | ⟨t, ht, hle⟩
  · simp only [setCache, h]
  · simp only [setCache, ht]
    rw [if_pos hle]

/-- C9 witness: with the TTL absent, setCache on the empty store is a
successful no-op. -/
theorem setCache_disabled_spec_witness :
    setCache demoCfg emptyStore ("k") ("v") = (.ok (), emptyStore) :=
  setCache_disabled_spec demoCfg emptyStore ("k") ("v") (.inl rfl)

/-- C1 code bug: on the 2-per-3600 scenario the rate limiter itself
behaves as the claim says - the first and second requests pass the free
check and persist counts 1 and 2, and the third is rejected with a 402
whose message contains the limit and window - but the first and second
requests do not succeed: the charging stage throws its TypeError before
the handler runs, so they end as unhandled 500 errors, not 200, and the
handler is never invoked. -/
theorem freeTier_rateLimit_code_bug :
    demoStep1.2.1.rateLimits ("ratelimit:anonymous")
        = .val (some { count := 1, resetTime := 3600000 })
    ∧ demoStep2.2.1.rateLimits ("ratelimit:anonymous")
        = .val (some { count := 2, resetTime := 3600000 })
    ∧ demoStep1.1.status = 500 ∧ demoStep1.2.2 = none
    ∧ demoStep2.1.status = 500 ∧ demoStep2.2.2 = none
    ∧ demoStep3.1.status = 402
    ∧ containsSub ("2 requests per 3600") demoStep3.1.body = true := by
  refine ⟨by decide, by decide, by decide, by decide, by decide, by decide, by decide, by decide⟩

/-- C3: a truthy cache hit on a non-OPTIONS request short-circuits the
pipeline: the result is exactly the 200 response carrying the cached
body with the X-Cache HIT header, the store is returned untouched (no
rate-limit increment, no charge), the external handler is never invoked,
and the response does not depend on the user or rate-limit state at all
- in particular it is served even to an exhausted or insolvent caller. -/
theorem cacheHit_bypass_spec (cfg : Config) (env : Env) (now : Nat) (st : Store)
    (req : Request) (v : String)
    (hm : ¬ req.method = "OPTIONS")
    (hc : st.cache (requestCacheKey cfg req) = .val (some v))
    (hv : ¬ v = "") :
    handleRequest cfg env now st req
      = (createSuccessResponse v (requestFormat req) ("HIT"), st, none)
    ∧ (handleRequest cfg env now st req).1.status = 200
    ∧ ("X-Cache", "HIT") ∈ (handleRequest cfg env now st req).1.headers
    ∧ (∀ st2 : Store, st2.cache = st.cache →
        (handleRequest cfg env now st2 req).1
          = createSuccessResponse v (requestFormat req) ("HIT")) := by
  have hg : getFromCache st (requestCacheKey cfg req) = .ok (.hit v) := by
    simp only [getFromCache, hc]
    rw [if_neg hv]
  have hmain : handleRequest cfg env now st req
      = (createSuccessResponse v (requestFormat req) ("HIT"), st, none) := by
    simp only [handleRequest]
    rw [if_neg hm, hg]
  refine ⟨hmain, ?_, ?_, ?_⟩
  · rw [hmain]
    rfl
  · rw [hmain]
    exact List.mem_cons_of_mem _ (List.mem_cons_self _ _)
  · intro st2 h2
    have hc2 : st2.cache (requestCacheKey cfg req) = .val (some v) := by
      rw [h2]; exact hc
    have hg2 : getFromCache st2 (requestCacheKey cfg req) = .ok (.hit v) := by
      simp only [getFromCache, hc2]
      rw [if_neg hv]
    have : handleRequest cfg env now st2 req
        = (createSuccessResponse v (requestFormat req) ("HIT"), st2, none) := by
      simp only [handleRequest]
      rw [if_neg hm, hg2]
    rw [this]

/-- C3 witness: a cached body is served with X-Cache HIT to a caller
whose stored quota is exhausted (count 99) and whose balance is -5,
leaving the store untouched and the handler uninvoked. -/
theorem cacheHit_bypass_spec_witness :
    handleRequest demoCfg env0 0 stC3 reqC3
      = (createSuccessResponse ("cached!") (requestFormat reqC3) ("HIT"), stC3, none) :=
  (cacheHit_bypass_spec demoCfg env0 0 stC3 reqC3 ("cached!")
    (by decide) (by decide) (by decide)).1

/-- C10: the cache reports a hit only for truthy stored values - an
absent entry or a stored empty string reads back as Miss, a non-empty
string as Hit - and consequently a request whose key holds the empty
string falls through to the full rate-limit and billing pipeline. -/
theorem cacheTruthy_spec :
    (∀ (st : Store) (k : String), st.cache k = .val (some ("")) →
      getFromCache st k = .ok .miss)
    ∧ (∀ (st : Store) (k : String), st.cache k = .val none →
        getFromCache st k = .ok .miss)
    ∧ (∀ (st : Store) (k v : String), st.cache k = .val (some v) → ¬ v = "" →
        getFromCache st k = .ok (.hit v))
    ∧ (∀ (cfg : Config) (env : Env) (now : Nat) (st : Store) (req : Request),
        ¬ req.method = "OPTIONS" →
        st.cache (requestCacheKey cfg req) = .val (some ("")) →
        handleRequest cfg env now st req
          = processMiss cfg env now st req (parseRequestData req) (requestFormat req)
              (requestCacheKey cfg req)) := by
  refine ⟨?_, ?_, ?_, ?_⟩
  · intro st k h
    simp [getFromCache, h]
  · intro st k h
    simp [getFromCache, h]
  · intro st k v h hv
    simp only [getFromCache, h]
    rw [if_neg hv]
  · intro cfg env now st req hm hc
    have hmiss : getFromCache st (requestCacheKey cfg req) = .ok .miss := by
      simp [getFromCache, hc]
    simp only [handleRequest]
    rw [if_neg hm, hmiss]

/-- C10 witness: with the empty string cached under the key of the demo
request, the orchestrator re-enters the miss pipeline. -/
theorem cacheTruthy_spec_witness :
    handleRequest demoCfg env0 0 stC10 demoReq
      = processMiss demoCfg env0 0 stC10 demoReq (parseRequestData demoReq)
          (requestFormat demoReq) (requestCacheKey demoCfg demoReq) :=
  cacheTruthy_spec.2.2.2 demoCfg env0 0 stC10 demoReq (by decide) (by decide)

/-- Unfolding of the lexicographic comparison on nonempty lists. -/
theorem lexLE_cons (a b : Char) (as bs : List Char) :
    lexLE (a :: as) (b :: bs) = true ↔ a < b ∨ (a = b ∧ lexLE as bs = true) := by
  by_cases hab : a < b
  · simp [lexLE, hab]
  · by_cases hba : b < a
    · have hne : ¬ a = b := fun h => absurd (h ▸ hba) (lt_irrefl a)
      simp [lexLE, hab, hba, hne]
    · have heq : a = b := le_antisymm (not_lt.mp hba) (not_lt.mp hab)
      simp [lexLE, hab, hba, heq]

/-- The lexicographic comparison is total. -/
theorem lexLE_total : ∀ x y : List Char, lexLE x y = true ∨ lexLE y x = true := by
  intro x
  induction x with
  | nil => intro y; exact .inl rfl
  | cons a as ih =>
    intro y
    cases y with
    | nil => exact .inr rfl
    | cons b bs =>
      rcases lt_trichotomy a b with hab | heq | hba
      · exact .inl ((lexLE_cons a b as bs).mpr (.inl hab))
      · rcases ih bs with h | h
        · exact .inl ((lexLE_cons a b as bs).mpr (.inr ⟨heq, h⟩))
        · exact .inr ((lexLE_cons b a bs as).mpr (.inr ⟨heq.symm, h⟩))
      · exact .inr ((lexLE_cons b a bs as).mpr (.inl hba))

/-- The lexicographic comparison is transitive. -/
theorem lexLE_trans : ∀ x y z : List Char,
    lexLE x y = true → lexLE y z = true → lexLE x z = true := by
  intro x
  induction x with
  | nil => intro y z h1 h2; rfl
  | cons a as ih =>
    intro y z hxy hyz
    cases y with
    | nil => simp [lexLE] at hxy
    | cons b bs =>
      cases z with
      | nil => simp [lexLE] at hyz
      | cons c cs =>
        rcases (lexLE_cons a b as bs).mp hxy with hab | ⟨hab, hrec1⟩
        · rcases (lexLE_cons b c bs cs).mp hyz with hbc | ⟨hbc, hrec2⟩
          · exact (lexLE_cons a c as cs).mpr (.inl (lt_trans hab hbc))
          · refine (lexLE_cons a c as cs).mpr (.inl ?_)
            rw [← hbc]; exact hab
        · rcases (lexLE_cons b c bs cs).mp hyz with hbc | ⟨hbc, hrec2⟩
          · refine (lexLE_cons a c as cs).mpr (.inl ?_)
            rw [hab]; exact hbc
          · exact (lexLE_cons a c as cs).mpr (.inr ⟨hab.trans hbc, ih bs cs hrec1 hrec2⟩)

/-- The lexicographic comparison is antisymmetric. -/
theorem lexLE_antisymm : ∀ x y : List Char,
    lexLE x y = true → lexLE y x = true → x = y := by
  intro x
  induction x with
  | nil =>
    intro y h1 h2
    cases y with
    | nil => rfl
    | cons b bs => simp [lexLE] at h2
  | cons a as ih =>
    intro y h1 h2
    cases y with
    | nil => simp [lexLE] at h1
    | cons b bs =>
      rcases (lexLE_cons a b as bs).mp h1 with hab | ⟨hab, hr1⟩
      · rcases (lexLE_cons b a bs as).mp h2 with hba | ⟨hba, hr2⟩
        · exact absurd hba (lt_asymm hab)
        · subst hba
          exact absurd hab (lt_irrefl _)
      · rcases (lexLE_cons b a bs as).mp h2 with hba | ⟨hba, hr2⟩
        · subst hab
          exact absurd hba (lt_irrefl _)
        · rw [hab, ih bs hr1 hr2]

/-- Totality of the key comparison. -/
theorem keyLE_total (a b : String) : keyLE a b = true ∨ keyLE b a = true :=
  lexLE_total a.data b.data

/-- Transitivity of the key comparison. -/
theorem keyLE_trans (a b c : String) :
    keyLE a b = true → keyLE b c = true → keyLE a c = true :=
  lexLE_trans a.data b.data c.data

/-- Antisymmetry of the key comparison. -/
theorem keyLE_antisymm (a b : String) :
    keyLE a b = true → keyLE b a = true → a = b := by
  intro h1 h2
  have h := lexLE_antisymm a.data b.data h1 h2
  obtain ⟨da⟩ := a
  obtain ⟨db⟩ := b
  exact congrArg String.mk h

/-- Two pairwise facts combine pointwise. -/
theorem pairwise_and {α : Type} {R S : α → α → Prop} :
    ∀ {l : List α}, l.Pairwise R → l.Pairwise S →
      l.Pairwise (fun a b => R a b ∧ S a b) := by
  intro l
  induction l with
  | nil => intro h1 h2; exact List.Pairwise.nil
  | cons a t ih =>
    intro h1 h2
    rcases List.pairwise_cons.mp h1 with ⟨ha1, ht1⟩
    rcases List.pairwise_cons.mp h2 with ⟨ha2, ht2⟩
    exact List.pairwise_cons.mpr ⟨fun b hb => ⟨ha1 b hb, ha2 b hb⟩, ih ht1 ht2⟩

/-- insertPair inserts its element, as a permutation fact. -/
theorem insertPair_perm (p : String × String) :
    ∀ l, List.Perm (insertPair p l) (p :: l) := by
  intro l
  induction l with
  | nil => exact List.Perm.refl _
  | cons q qs ih =>
    simp only [insertPair]
    by_cases h : keyLE p.1 q.1 = true
    · rw [if_pos h]
    · rw [if_neg h]
      exact (List.Perm.cons q ih).trans (List.Perm.swap p q qs)

/-- sortPairs permutes its input. -/
theorem sortPairs_perm : ∀ l, List.Perm (sortPairs l) l := by
  intro l
  induction l with
  | nil => exact List.Perm.refl _
  | cons p ps ih =>
    exact (insertPair_perm p (sortPairs ps)).trans (List.Perm.cons p ih)

/-- insertPair preserves weak sortedness by key. -/
theorem insertPair_pairwise (p : String × String) :
    ∀ l, l.Pairwise pairKeyLE → (insertPair p l).Pairwise pairKeyLE := by
  intro l
  induction l with
  | nil =>
    intro h
    exact List.pairwise_cons.mpr ⟨fun b hb => absurd hb (List.not_mem_nil b), List.Pairwise.nil⟩
  | cons q qs ih =>
    intro h
    rcases List.pairwise_cons.mp h with ⟨hq, hqs⟩
    simp only [insertPair]
    by_cases hpq : keyLE p.1 q.1 = true
    · rw [if_pos hpq]
      refine List.pairwise_cons.mpr ⟨?_, h⟩
      intro b hb
      rcases List.mem_cons.mp hb with rfl | hb2
      · exact hpq
      · exact keyLE_trans _ _ _ hpq (hq b hb2)
    · rw [if_neg hpq]
      refine List.pairwise_cons.mpr ⟨?_, ih hqs⟩
      intro b hb
      have hb2 : b ∈ p :: qs := (insertPair_perm p qs).mem_iff.mp hb
      rcases List.mem_cons.mp hb2 with hbp | hb3
      · rw [hbp]
        rcases keyLE_total p.1 q.1 with h2 | h2
        · exact absurd h2 hpq
        · exact h2
      · exact hq b hb3

/-- The sort output is weakly sorted by key. -/
theorem sortPairs_pairwise : ∀ l, (sortPairs l).Pairwise pairKeyLE := by
  intro l
  induction l with
  | nil => exact List.Pairwise.nil
  | cons p ps ih => exact insertPair_pairwise p (sortPairs ps) ih

/-- On parameter lists with pairwise-distinct keys, the stable sort is
invariant under permutation of the input. -/
theorem sortPairs_eq_of_perm (ps qs : List (String × String)) (hperm : List.Perm ps qs)
    (hnd : (ps.map Prod.fst).Nodup) : sortPairs ps = sortPairs qs := by
  have hnd2 : (ps.map Prod.fst).Pairwise (fun a b => a ≠ b) := hnd
  have hne_ps : ps.Pairwise pairKeyNe := by
    rw [List.pairwise_map] at hnd2
    exact hnd2
  have hsym : ∀ {x y : String × String}, pairKeyNe x y → pairKeyNe y x :=
    fun h => Ne.symm h
  have hne_qs : qs.Pairwise pairKeyNe := (hperm.pairwise_iff hsym).mp hne_ps
  have hs_ps : (sortPairs ps).Pairwise pairKeyNe :=
    ((sortPairs_perm ps).pairwise_iff hsym).mpr hne_ps
  have hs_qs : (sortPairs qs).Pairwise pairKeyNe :=
    ((sortPairs_perm qs).pairwise_iff hsym).mpr hne_qs
  have hlt_ps : (sortPairs ps).Pairwise keyLT :=
    (pairwise_and (sortPairs_pairwise ps) hs_ps).imp (fun h => ⟨h.1, h.2⟩)
  have hlt_qs : (sortPairs qs).Pairwise keyLT :=
    (pairwise_and (sortPairs_pairwise qs) hs_qs).imp (fun h => ⟨h.1, h.2⟩)
  have hpq : List.Perm (sortPairs ps) (sortPairs qs) :=
    (sortPairs_perm ps).trans (hperm.trans (sortPairs_perm qs).symm)
  exact @List.eq_of_perm_of_sorted _ keyLT
    ⟨fun a b h1 h2 => (h1.2 (keyLE_antisymm _ _ h1.1 h2.1)).elim⟩
    _ _ hpq hlt_ps hlt_qs

/-- C5 amended: the cache key has the documented shape and is invariant
under reordering of query parameters with pairwise-distinct keys (the
stable sort compares only keys, so duplicate keys keep their input
order); for path /x both orders of the distinct-key query produce the
key cache:v1:/x:a=1&b=2: followed by the format name. -/
theorem cacheKey_sorted_spec (cfg : Config) (pathname : String) (fmt : ResponseFormat)
    (ps qs : List (String × String)) (hperm : List.Perm ps qs)
    (hnd : (ps.map Prod.fst).Nodup) :
    createCacheKey cfg pathname ps fmt = createCacheKey cfg pathname qs fmt
    ∧ (∀ f, createCacheKey demoCfg ("/x") [("b", "2"), ("a", "1")] f
        = ("cache:v1:/x:a=1&b=2:") ++ formatName f)
    ∧ (∀ f, createCacheKey demoCfg ("/x") [("a", "1"), ("b", "2")] f
        = ("cache:v1:/x:a=1&b=2:") ++ formatName f) := by
  refine ⟨?_, ?_, ?_⟩
  · simp only [createCacheKey]
    rw [sortPairs_eq_of_perm ps qs hperm hnd]
  · intro f; cases f <;> decide
  · intro f; cases f <;> decide

/-- C5 counterexample: the two query strings a=1 with a=2 and a=2 with
a=1 denote the same key-value multiset, yet the stable sort compares
only keys and keeps the input order of the duplicate key, so the two
cache keys differ - the claimed invariance under arbitrary multiset
reordering fails for duplicate keys. -/
theorem cacheKey_multiset_counterexample :
    List.Perm [(("a" : String), ("1" : String)), ("a", "2")] [("a", "2"), ("a", "1")]
    ∧ createCacheKey demoCfg ("/x") [("a", "1"), ("a", "2")] .json
        ≠ createCacheKey demoCfg ("/x") [("a", "2"), ("a", "1")] .json :=
  ⟨by decide, by decide⟩

/-- C5 witness: the two orders of the distinct-key query b=2, a=1
produce equal cache keys. -/
theorem cacheKey_sorted_spec_witness :
    createCacheKey demoCfg ("/x") [("b", "2"), ("a", "1")] .json
      = createCacheKey demoCfg ("/x") [("a", "1"), ("b", "2")] .json :=
  (cacheKey_sorted_spec demoCfg ("/x") .json [("b", "2"), ("a", "1")]
    [("a", "1"), ("b", "2")] (by decide) (by decide)).1

/-- C7 code bug: the claim describes the context received by the
external business handler, but no request ever reaches the handler -
the charging stage throws its TypeError before config.fetch on every
user state, so the third component of every run is none (the context is
never constructed); on the concrete InsufficientBalance run (balance 0
under token tok, empty rate-limit and cache state) the rate limiter
allows the request and the server then answers with the unhandled 500.
-/
theorem handlerContext_code_bug :
    (∀ (cfg : Config) (env : Env) (now : Nat) (st : Store) (req : Request),
      (handleRequest cfg env now st req).2.2 = none)
    ∧ determineUserState stC7 (parseRequestData reqC7) = .insufficient_balance uC7
    ∧ (handleRequest demoCfg env0 0 stC7 reqC7).1.status = 500
    ∧ (handleRequest demoCfg env0 0 stC7 reqC7).2.1.rateLimits ("ratelimit:tok")
        = .val (some { count := 1, resetTime := 3600000 }) := by
  refine ⟨?_, by decide, by decide, by decide⟩
  intro cfg env now st req
  by_cases hm : req.method = "OPTIONS"
  · rw [handleRequest, if_pos hm]
  · rw [handleRequest, if_neg hm]
    split
    · rfl
    · simp only [processMiss]
      split
      · rfl
      · rfl
      · simp only [chargeStage]

end UA402
